import Mathlib

/-!
Verification of the avocado land-suitability pipeline
(src/avocado_suitability/Avocado_suitability2-shr.py).

The script classifies six raster layers (precipitation, max temperature,
min temperature, slope, aspect, soil pH) into per-cell suitability classes
by chains of in-place masked assignments on a copy of each input array, and
then combines the six class grids: a veto mask (any factor equal to 0 zeroes
the cell) gating the arithmetic sum of the six class grids.

Grids are embedded as lists of rows of rational cell values; every numpy
masked assignment is elementwise, so each chain is embedded as a per-cell
function mapped over the grid, and the per-cell function applies the masks
in program order to the evolving cell value, exactly as the in-place chain
does.  The variable/state embedding at the end of the file models the
assignment structure itself (which array each statement writes to), for the
frame properties.
-/

namespace Avocado

abbrev Grid := List (List ℚ)

/-- Cell access with out-of-range default, used to state per-cell facts. -/
def cellAt (g : Grid) (i j : ℕ) : ℚ := (g.getD i []).getD j 0

/-- Shape of a grid: number of rows, and the length of each row. -/
def gridShape (g : Grid) : ℕ × List ℕ := (g.length, g.map List.length)

/-- One numpy masked assignment `a[c(a)] = x`, seen at a single cell. -/
def applyMask (c : ℚ → Prop) [DecidablePred c] (x : ℚ) (v : ℚ) : ℚ :=
  if c v then x else v

/-! Threshold constants, from the script. -/

def rainfall_opt_max : ℚ := 2000
def rainfall_opt_min : ℚ := 500
def rainfall_abs_max : ℚ := 2500
def rainfall_abs_min : ℚ := 300

def temperature_opt_max : ℚ := 40
def temperature_abs_max : ℚ := 45

def temperature_opt_min : ℚ := 14
def temperature_abs_min : ℚ := 10

def slope_abs_max : ℚ := 15
def slope_opt_max : ℚ := 2

def aspect_min : ℚ := 112.5
def aspect_max : ℚ := 202.5

def ph_opt_max : ℚ := 5.8
def ph_opt_min : ℚ := 5
def ph_abs_max : ℚ := 7
def ph_abs_min : ℚ := 4.5

/-! Mask conditions, one per masked assignment, in program order. -/

abbrev precipCond0 (v : ℚ) : Prop := v ≥ rainfall_abs_max ∨ v < rainfall_abs_min
abbrev precipCond1 (v : ℚ) : Prop :=
  (v ≥ rainfall_abs_min ∧ v < rainfall_opt_min) ∨ (v ≥ rainfall_opt_max ∧ v < rainfall_abs_max)
abbrev precipCond2 (v : ℚ) : Prop := v ≥ rainfall_opt_min ∧ v ≤ rainfall_opt_max

abbrev tmaxCond0 (v : ℚ) : Prop := v < temperature_opt_max
abbrev tmaxCond1 (v : ℚ) : Prop := v ≥ temperature_opt_max ∧ v < temperature_abs_max
abbrev tmaxCond2 (v : ℚ) : Prop := v ≥ temperature_abs_max

abbrev tminCond0 (v : ℚ) : Prop := v < temperature_abs_min
abbrev tminCond1 (v : ℚ) : Prop := v ≥ temperature_abs_min ∧ v < temperature_opt_min
abbrev tminCond2 (v : ℚ) : Prop := v ≥ temperature_opt_min

abbrev slopeCond0 (v : ℚ) : Prop := v ≤ slope_opt_max
abbrev slopeCond1 (v : ℚ) : Prop := v > slope_opt_max ∧ v < slope_abs_max
abbrev slopeCond2 (v : ℚ) : Prop := v ≥ slope_abs_max

abbrev aspectCond0 (v : ℚ) : Prop := v > aspect_min ∧ v < aspect_max
abbrev aspectCond1 (v : ℚ) : Prop := v ≥ 0
abbrev aspectCond2 (v : ℚ) : Prop := v = -99

abbrev phCond0 (v : ℚ) : Prop := v = -999
abbrev phCond1 (v : ℚ) : Prop := v < ph_abs_min
abbrev phCond2 (v : ℚ) : Prop := v ≥ ph_abs_min ∧ v < ph_opt_min
abbrev phCond3 (v : ℚ) : Prop := v ≥ ph_opt_min ∧ v < ph_opt_max
abbrev phCond4 (v : ℚ) : Prop := v ≥ ph_opt_max ∧ v < ph_abs_max
abbrev phCond5 (v : ℚ) : Prop := v ≥ ph_abs_max

/-! Per-cell semantics of each in-place overwrite chain: the masks are
applied in program order to the evolving value of the cell. -/

def precip_suitability_cell (v : ℚ) : ℚ :=
  applyMask precipCond2 2 (applyMask precipCond1 1 (applyMask precipCond0 0 v))

def tmax_suitability_cell (v : ℚ) : ℚ :=
  applyMask tmaxCond2 0 (applyMask tmaxCond1 1 (applyMask tmaxCond0 2 v))

def tmin_suitability_cell (v : ℚ) : ℚ :=
  applyMask tminCond2 2 (applyMask tminCond1 1 (applyMask tminCond0 0 v))

def slope_suitability_cell (v : ℚ) : ℚ :=
  applyMask slopeCond2 0 (applyMask slopeCond1 1 (applyMask slopeCond0 2 v))

def aspect_suitability_cell (v : ℚ) : ℚ :=
  applyMask aspectCond2 0 (applyMask aspectCond1 2 (applyMask aspectCond0 (-99) v))

def ph_suitability_cell (v : ℚ) : ℚ :=
  applyMask phCond5 0 (applyMask phCond4 1 (applyMask phCond3 2
    (applyMask phCond2 1 (applyMask phCond1 0 (applyMask phCond0 0 v)))))

/-! Grid-level classifiers: each chain of masked assignments is elementwise,
so it is the per-cell chain mapped over the copied grid. -/

def precip_suitability (g : Grid) : Grid := g.map (List.map precip_suitability_cell)
def tmax_suitability (g : Grid) : Grid := g.map (List.map tmax_suitability_cell)
def tmin_suitability (g : Grid) : Grid := g.map (List.map tmin_suitability_cell)
def slope_suitability (g : Grid) : Grid := g.map (List.map slope_suitability_cell)
def aspect_suitability (g : Grid) : Grid := g.map (List.map aspect_suitability_cell)
def ph_suitability (g : Grid) : Grid := g.map (List.map ph_suitability_cell)

/-- The row-and-column trim applied to the soil-pH raster right after it is
read: `ph = ph[:-1,:-1]`. -/
def phTrim (g : Grid) : Grid := (List.dropLast g).map List.dropLast

/-! The layer combiner. -/

/-- Elementwise combination of two grids, as numpy does on same-shaped
arrays (on mismatched lists this truncates to the common extent; all uses
in the script are on grids of one shape). -/
def map2 (f : ℚ → ℚ → ℚ) (g h : Grid) : Grid := List.zipWith (List.zipWith f) g h

/-- One veto mask `test[m == 0] = 0`. -/
def maskZero (t m : Grid) : Grid := map2 (fun tv mv => if mv = 0 then 0 else tv) t m

/-- The `test` array: starts as a copy of the aspect classes, then is zeroed
wherever each factor grid is 0, in program order. -/
def testGrid (a s p tx tn ph : Grid) : Grid :=
  maskZero (maskZero (maskZero (maskZero (maskZero (maskZero a p) tx) tn) a) s) ph

/-- The `combined` array: the sum of the six class grids, in program order. -/
def combinedGrid (a s p tx tn ph : Grid) : Grid :=
  map2 (· + ·) (map2 (· + ·) (map2 (· + ·) (map2 (· + ·) (map2 (· + ·) a s) p) tx) tn) ph

/-- The final grid: `result = np.where(test > 0, combined, 0)`. -/
def result (a s p tx tn ph : Grid) : Grid :=
  map2 (fun t c => if t > 0 then c else 0) (testGrid a s p tx tn ph)
    (combinedGrid a s p tx tn ph)

/-- The combiner at a single cell: the veto chain and the gated sum. -/
def result_cell (a s p tx tn ph : ℚ) : ℚ :=
  let t := a
  let t := if p = 0 then 0 else t
  let t := if tx = 0 then 0 else t
  let t := if tn = 0 then 0 else t
  let t := if a = 0 then 0 else t
  let t := if s = 0 then 0 else t
  let t := if ph = 0 then 0 else t
  if t > 0 then a + s + p + tx + tn + ph else 0

/-! Range and case lemmas for the per-cell classifiers. -/

lemma precip_cell_mem (v : ℚ) :
    precip_suitability_cell v = 0 ∨ precip_suitability_cell v = 1 ∨
      precip_suitability_cell v = 2 := by
  simp only [precip_suitability_cell, applyMask, precipCond0, precipCond1, precipCond2,
    rainfall_abs_max, rainfall_abs_min, rainfall_opt_max, rainfall_opt_min]
  split_ifs <;> try norm_num
  rename_i h0 h1 h2
  exfalso
  rw [not_or] at h0
  rcases lt_or_le v 500 with hv | hv
  · exact h1 (Or.inl ⟨not_lt.mp h0.2, hv⟩)
  · rcases le_or_lt v 2000 with hw | hw
    · exact h2 ⟨hv, hw⟩
    · exact h1 (Or.inr ⟨le_of_lt hw, not_le.mp h0.1⟩)

lemma tmax_cell_mem (v : ℚ) :
    tmax_suitability_cell v = 0 ∨ tmax_suitability_cell v = 1 ∨
      tmax_suitability_cell v = 2 := by
  simp only [tmax_suitability_cell, applyMask, tmaxCond0, tmaxCond1, tmaxCond2,
    temperature_abs_max, temperature_opt_max]
  split_ifs <;> try norm_num
  rename_i h0 h1 h2
  exact absurd ⟨not_lt.mp h0, not_le.mp h2⟩ h1

lemma tmin_cell_mem (v : ℚ) :
    tmin_suitability_cell v = 0 ∨ tmin_suitability_cell v = 1 ∨
      tmin_suitability_cell v = 2 := by
  simp only [tmin_suitability_cell, applyMask, tminCond0, tminCond1, tminCond2,
    temperature_abs_min, temperature_opt_min]
  split_ifs <;> try norm_num
  rename_i h0 h1 h2
  exact absurd ⟨not_lt.mp h0, not_le.mp h2⟩ h1

lemma slope_cell_mem (v : ℚ) :
    slope_suitability_cell v = 0 ∨ slope_suitability_cell v = 1 ∨
      slope_suitability_cell v = 2 := by
  simp only [slope_suitability_cell, applyMask, slopeCond0, slopeCond1, slopeCond2,
    slope_abs_max, slope_opt_max]
  split_ifs <;> try norm_num
  rename_i h0 h1 h2
  exact absurd ⟨not_le.mp h0, not_le.mp h2⟩ h1

lemma ph_cell_mem (v : ℚ) :
    ph_suitability_cell v = 0 ∨ ph_suitability_cell v = 1 ∨
      ph_suitability_cell v = 2 := by
  simp only [ph_suitability_cell, applyMask, phCond0, phCond1, phCond2, phCond3, phCond4,
    phCond5, ph_abs_max, ph_abs_min, ph_opt_max, ph_opt_min]
  split_ifs <;> try norm_num
  rename_i h0 h1 h2 h3 h4 h5
  exfalso
  have hv : (4.5 : ℚ) ≤ v := not_lt.mp h1
  have hw : v < 7 := not_le.mp h5
  rcases lt_or_le v 5 with ha | ha
  · exact h2 ⟨hv, ha⟩
  · rcases lt_or_le v 5.8 with hb | hb
    · exact h3 ⟨ha, hb⟩
    · exact h4 ⟨hb, hw⟩

lemma aspect_cell_cases (v : ℚ) :
    aspect_suitability_cell v = 0 ∨ aspect_suitability_cell v = 2 ∨
      (aspect_suitability_cell v = v ∧ v < 0 ∧ v ≠ -99) := by
  simp only [aspect_suitability_cell, applyMask, aspectCond0, aspectCond1, aspectCond2,
    aspect_min, aspect_max]
  split_ifs <;> try norm_num
  · rename_i h0 h1 h2
    exact absurd rfl h2
  · rename_i h0 h1 h2
    exact Or.inr (Or.inr ⟨not_le.mp h1, h2⟩)

/-- The veto chain of the combiner collapses to one disjunction test. -/
lemma result_cell_eq (a s p tx tn ph : ℚ) :
    result_cell a s p tx tn ph =
      if p = 0 ∨ tx = 0 ∨ tn = 0 ∨ a = 0 ∨ s = 0 ∨ ph = 0 then 0
      else if a > 0 then a + s + p + tx + tn + ph else 0 := by
  simp only [result_cell]
  split_ifs <;> tauto

/-! Lifting per-cell facts through the elementwise grid operations. -/

lemma map2_bounds (f : ℚ → ℚ → ℚ) (g h : Grid) (i j : ℕ)
    (hi : i < (map2 f g h).length) (hj : j < ((map2 f g h).getD i []).length) :
    (i < g.length ∧ j < (g.getD i []).length) ∧
      (i < h.length ∧ j < (h.getD i []).length) := by
  have hg : i < g.length := by
    simp only [map2, List.length_zipWith, lt_min_iff] at hi
    exact hi.1
  have hh : i < h.length := by
    simp only [map2, List.length_zipWith, lt_min_iff] at hi
    exact hi.2
  rw [List.getD_eq_getElem _ _ hi] at hj
  simp only [map2, List.getElem_zipWith, List.length_zipWith, lt_min_iff] at hj
  refine ⟨⟨hg, ?_⟩, ⟨hh, ?_⟩⟩
  · rw [List.getD_eq_getElem _ _ hg]
    exact hj.1
  · rw [List.getD_eq_getElem _ _ hh]
    exact hj.2

lemma cellAt_map2 (f : ℚ → ℚ → ℚ) (g h : Grid) (i j : ℕ)
    (hi : i < (map2 f g h).length) (hj : j < ((map2 f g h).getD i []).length) :
    cellAt (map2 f g h) i j = f (cellAt g i j) (cellAt h i j) := by
  obtain ⟨⟨hg, hg'⟩, ⟨hh, hh'⟩⟩ := map2_bounds f g h i j hi hj
  rw [List.getD_eq_getElem _ _ hg] at hg'
  rw [List.getD_eq_getElem _ _ hh] at hh'
  have hrow : j < (List.zipWith f g[i] h[i]).length := by
    rw [List.length_zipWith]
    exact lt_min_iff.mpr ⟨hg', hh'⟩
  unfold cellAt
  rw [List.getD_eq_getElem _ _ hi]
  simp only [map2, List.getElem_zipWith]
  rw [List.getD_eq_getElem _ _ hrow, List.getD_eq_getElem _ _ hg,
    List.getD_eq_getElem _ _ hh, List.getD_eq_getElem _ _ hg',
    List.getD_eq_getElem _ _ hh']
  simp [List.getElem_zipWith]

lemma mapGrid_bounds (f : ℚ → ℚ) (g : Grid) (i j : ℕ)
    (hi : i < (g.map (List.map f)).length)
    (hj : j < ((g.map (List.map f)).getD i []).length) :
    i < g.length ∧ j < (g.getD i []).length := by
  have hg : i < g.length := by simpa using hi
  refine ⟨hg, ?_⟩
  rw [List.getD_eq_getElem _ _ hi] at hj
  simp only [List.getElem_map, List.length_map] at hj
  rw [List.getD_eq_getElem _ _ hg]
  exact hj

lemma cellAt_mapGrid (f : ℚ → ℚ) (g : Grid) (i j : ℕ)
    (hi : i < (g.map (List.map f)).length)
    (hj : j < ((g.map (List.map f)).getD i []).length) :
    cellAt (g.map (List.map f)) i j = f (cellAt g i j) := by
  obtain ⟨hg, hg'⟩ := mapGrid_bounds f g i j hi hj
  rw [List.getD_eq_getElem _ _ hg] at hg'
  unfold cellAt
  rw [List.getD_eq_getElem _ _ hi, List.getD_eq_getElem _ _ hg]
  simp only [List.getElem_map]
  rw [List.getD_eq_getElem _ _ (by simpa using hg'), List.getD_eq_getElem _ _ hg']
  simp [List.getElem_map]

/-- The grid combiner agrees with the per-cell combiner at every in-range
cell of the result grid. -/
lemma result_cellAt (a s p tx tn ph : Grid) (i j : ℕ)
    (hi : i < (result a s p tx tn ph).length)
    (hj : j < ((result a s p tx tn ph).getD i []).length) :
    cellAt (result a s p tx tn ph) i j =
      result_cell (cellAt a i j) (cellAt s i j) (cellAt p i j) (cellAt tx i j)
        (cellAt tn i j) (cellAt ph i j) := by
  unfold result at hi hj ⊢
  rw [cellAt_map2 _ _ _ _ _ hi hj]
  obtain ⟨⟨ht, ht'⟩, ⟨hc, hc'⟩⟩ := map2_bounds _ _ _ _ _ hi hj
  unfold testGrid at ht ht' ⊢
  unfold maskZero at ht ht' ⊢
  rw [cellAt_map2 _ _ _ _ _ ht ht']
  obtain ⟨⟨h5, h5'⟩, ⟨hph, hph'⟩⟩ := map2_bounds _ _ _ _ _ ht ht'
  rw [cellAt_map2 _ _ _ _ _ h5 h5']
  obtain ⟨⟨h4, h4'⟩, ⟨hs, hs'⟩⟩ := map2_bounds _ _ _ _ _ h5 h5'
  rw [cellAt_map2 _ _ _ _ _ h4 h4']
  obtain ⟨⟨h3, h3'⟩, ⟨ha, ha'⟩⟩ := map2_bounds _ _ _ _ _ h4 h4'
  rw [cellAt_map2 _ _ _ _ _ h3 h3']
  obtain ⟨⟨h2, h2'⟩, ⟨htn, htn'⟩⟩ := map2_bounds _ _ _ _ _ h3 h3'
  rw [cellAt_map2 _ _ _ _ _ h2 h2']
  obtain ⟨⟨h1, h1'⟩, ⟨htx, htx'⟩⟩ := map2_bounds _ _ _ _ _ h2 h2'
  rw [cellAt_map2 _ _ _ _ _ h1 h1']
  unfold combinedGrid at hc hc' ⊢
  rw [cellAt_map2 _ _ _ _ _ hc hc']
  obtain ⟨⟨k4, k4'⟩, ⟨kph, kph'⟩⟩ := map2_bounds _ _ _ _ _ hc hc'
  rw [cellAt_map2 _ _ _ _ _ k4 k4']
  obtain ⟨⟨k3, k3'⟩, ⟨ktn, ktn'⟩⟩ := map2_bounds _ _ _ _ _ k4 k4'
  rw [cellAt_map2 _ _ _ _ _ k3 k3']
  obtain ⟨⟨k2, k2'⟩, ⟨ktx, ktx'⟩⟩ := map2_bounds _ _ _ _ _ k3 k3'
  rw [cellAt_map2 _ _ _ _ _ k2 k2']
  obtain ⟨⟨k1, k1'⟩, ⟨kp, kp'⟩⟩ := map2_bounds _ _ _ _ _ k2 k2'
  rw [cellAt_map2 _ _ _ _ _ k1 k1']
  simp only [result_cell]

/-- An in-range cell of the result grid is in range in all six inputs. -/
lemma result_bounds (a s p tx tn ph : Grid) (i j : ℕ)
    (hi : i < (result a s p tx tn ph).length)
    (hj : j < ((result a s p tx tn ph).getD i []).length) :
    (i < a.length ∧ j < (a.getD i []).length) ∧
    (i < s.length ∧ j < (s.getD i []).length) ∧
    (i < p.length ∧ j < (p.getD i []).length) ∧
    (i < tx.length ∧ j < (tx.getD i []).length) ∧
    (i < tn.length ∧ j < (tn.getD i []).length) ∧
    (i < ph.length ∧ j < (ph.getD i []).length) := by
  unfold result at hi hj
  obtain ⟨⟨ht, ht'⟩, -⟩ := map2_bounds _ _ _ _ _ hi hj
  unfold testGrid maskZero at ht ht'
  obtain ⟨⟨h5, h5'⟩, hph⟩ := map2_bounds _ _ _ _ _ ht ht'
  obtain ⟨⟨h4, h4'⟩, hs⟩ := map2_bounds _ _ _ _ _ h5 h5'
  obtain ⟨⟨h3, h3'⟩, ha⟩ := map2_bounds _ _ _ _ _ h4 h4'
  obtain ⟨⟨h2, h2'⟩, htn⟩ := map2_bounds _ _ _ _ _ h3 h3'
  obtain ⟨⟨h1, h1'⟩, htx⟩ := map2_bounds _ _ _ _ _ h2 h2'
  obtain ⟨ha', hp⟩ := map2_bounds _ _ _ _ _ h1 h1'
  exact ⟨ha', hs, hp, htx, htn, hph⟩

/-- A value that is 1 or 2 is nonzero and lies in the band [1, 2]. -/
lemma class_one_two {x : ℚ} (h : x = 1 ∨ x = 2) : x ≠ 0 ∧ 1 ≤ x ∧ x ≤ 2 := by
  rcases h with rfl | rfl <;> norm_num

/-- C1: veto semantics of the layer combiner — at every in-range cell where
at least one of the six class grids (precipitation, max temperature, min
temperature, aspect, slope, soil pH) is 0, the combined result grid is 0,
whatever the other factors hold at that cell. -/
theorem combine_veto (a s p tx tn ph : Grid) (i j : ℕ)
    (hi : i < (result a s p tx tn ph).length)
    (hj : j < ((result a s p tx tn ph).getD i []).length)
    (h : cellAt p i j = 0 ∨ cellAt tx i j = 0 ∨ cellAt tn i j = 0 ∨
      cellAt a i j = 0 ∨ cellAt s i j = 0 ∨ cellAt ph i j = 0) :
    cellAt (result a s p tx tn ph) i j = 0 := by
  rw [result_cellAt _ _ _ _ _ _ _ _ hi hj, result_cell_eq, if_pos h]

/-- C1 witness: a concrete 1-by-1 instance with the precipitation class 0
and every other class 2 combines to 0. -/
theorem combine_veto_witness :
    cellAt (result [[2]] [[2]] [[0]] [[2]] [[2]] [[2]]) 0 0 = 0 :=
  combine_veto [[2]] [[2]] [[0]] [[2]] [[2]] [[2]] 0 0
    (by simp [result, map2, testGrid, maskZero, combinedGrid])
    (by simp [result, map2, testGrid, maskZero, combinedGrid, List.getD])
    (Or.inl (by simp [cellAt, List.getD]))

/-- C2: sum semantics of the layer combiner — at every in-range cell where
all six class grids hold a class that is at least 1 (hence 1 or 2), the
combined result equals the arithmetic sum of the six classes, and that sum
lies in the band [6, 12]. -/
theorem combine_sum (a s p tx tn ph : Grid) (i j : ℕ)
    (hi : i < (result a s p tx tn ph).length)
    (hj : j < ((result a s p tx tn ph).getD i []).length)
    (ha : cellAt a i j = 1 ∨ cellAt a i j = 2)
    (hs : cellAt s i j = 1 ∨ cellAt s i j = 2)
    (hp : cellAt p i j = 1 ∨ cellAt p i j = 2)
    (htx : cellAt tx i j = 1 ∨ cellAt tx i j = 2)
    (htn : cellAt tn i j = 1 ∨ cellAt tn i j = 2)
    (hph : cellAt ph i j = 1 ∨ cellAt ph i j = 2) :
    cellAt (result a s p tx tn ph) i j =
      cellAt a i j + cellAt s i j + cellAt p i j + cellAt tx i j +
        cellAt tn i j + cellAt ph i j ∧
    6 ≤ cellAt (result a s p tx tn ph) i j ∧
    cellAt (result a s p tx tn ph) i j ≤ 12 := by
  obtain ⟨ha0, ha1, ha2⟩ := class_one_two ha
  obtain ⟨hs0, hs1, hs2⟩ := class_one_two hs
  obtain ⟨hp0, hp1, hp2⟩ := class_one_two hp
  obtain ⟨htx0, htx1, htx2⟩ := class_one_two htx
  obtain ⟨htn0, htn1, htn2⟩ := class_one_two htn
  obtain ⟨hph0, hph1, hph2⟩ := class_one_two hph
  rw [result_cellAt _ _ _ _ _ _ _ _ hi hj, result_cell_eq]
  have hnot : ¬(cellAt p i j = 0 ∨ cellAt tx i j = 0 ∨ cellAt tn i j = 0 ∨
      cellAt a i j = 0 ∨ cellAt s i j = 0 ∨ cellAt ph i j = 0) := by
    rintro (h | h | h | h | h | h)
    exacts [hp0 h, htx0 h, htn0 h, ha0 h, hs0 h, hph0 h]
  have hpos : cellAt a i j > 0 := by linarith
  rw [if_neg hnot, if_pos hpos]
  exact ⟨rfl, by linarith, by linarith⟩

/-- C2 witness: a concrete 1-by-1 instance with every class 2 combines to
the sum 12, inside the band [6, 12]. -/
theorem combine_sum_witness :
    cellAt (result [[2]] [[2]] [[2]] [[2]] [[2]] [[2]]) 0 0 = 12 := by
  have h := combine_sum [[2]] [[2]] [[2]] [[2]] [[2]] [[2]] 0 0
    (by simp [result, map2, testGrid, maskZero, combinedGrid])
    (by simp [result, map2, testGrid, maskZero, combinedGrid, List.getD])
    (Or.inr (by simp [cellAt, List.getD])) (Or.inr (by simp [cellAt, List.getD]))
    (Or.inr (by simp [cellAt, List.getD])) (Or.inr (by simp [cellAt, List.getD]))
    (Or.inr (by simp [cellAt, List.getD])) (Or.inr (by simp [cellAt, List.getD]))
  rw [h.1]
  norm_num [cellAt, List.getD]

/-- A class value among 0, 1, 2 that is nonzero lies in [1, 2]. -/
lemma class_band {x : ℚ} (h : x = 0 ∨ x = 1 ∨ x = 2) (h0 : x ≠ 0) :
    1 ≤ x ∧ x ≤ 2 := by
  rcases h with rfl | rfl | rfl
  · exact absurd rfl h0
  · norm_num
  · norm_num

/-- At one cell, the whole pipeline (classify each factor, then combine)
lands in 0 or in the band [6, 12]. -/
lemma pipeline_cell_range (a s p tx tn ph : ℚ) :
    result_cell (aspect_suitability_cell a) (slope_suitability_cell s)
        (precip_suitability_cell p) (tmax_suitability_cell tx)
        (tmin_suitability_cell tn) (ph_suitability_cell ph) = 0 ∨
      (6 ≤ result_cell (aspect_suitability_cell a) (slope_suitability_cell s)
          (precip_suitability_cell p) (tmax_suitability_cell tx)
          (tmin_suitability_cell tn) (ph_suitability_cell ph) ∧
        result_cell (aspect_suitability_cell a) (slope_suitability_cell s)
          (precip_suitability_cell p) (tmax_suitability_cell tx)
          (tmin_suitability_cell tn) (ph_suitability_cell ph) ≤ 12) := by
  rw [result_cell_eq]
  by_cases hz : precip_suitability_cell p = 0 ∨ tmax_suitability_cell tx = 0 ∨
      tmin_suitability_cell tn = 0 ∨ aspect_suitability_cell a = 0 ∨
      slope_suitability_cell s = 0 ∨ ph_suitability_cell ph = 0
  · rw [if_pos hz]
    exact Or.inl rfl
  · rw [if_neg hz]
    push_neg at hz
    obtain ⟨hzp, hztx, hztn, hza, hzs, hzph⟩ := hz
    rcases aspect_cell_cases a with h | h | ⟨heq, hneg, -⟩
    · exact absurd h hza
    · obtain ⟨hs1, hs2⟩ := class_band (slope_cell_mem s) hzs
      obtain ⟨hp1, hp2⟩ := class_band (precip_cell_mem p) hzp
      obtain ⟨htx1, htx2⟩ := class_band (tmax_cell_mem tx) hztx
      obtain ⟨htn1, htn2⟩ := class_band (tmin_cell_mem tn) hztn
      obtain ⟨hph1, hph2⟩ := class_band (ph_cell_mem ph) hzph
      rw [if_pos (by rw [h]; norm_num)]
      rw [h]
      exact Or.inr ⟨by linarith, by linarith⟩
    · rw [if_neg (by rw [heq]; exact not_lt.mpr (le_of_lt hneg))]
      exact Or.inl rfl

/-- C5: combined-score range invariant — for every six input rasters run
through the whole pipeline (per-factor classification, then combination),
every in-range cell of the final result grid is either 0 or in the band
[6, 12]; it never falls strictly between 0 and 6. -/
theorem result_range (A S P TX TN PH : Grid) (i j : ℕ)
    (hi : i < (result (aspect_suitability A) (slope_suitability S)
      (precip_suitability P) (tmax_suitability TX) (tmin_suitability TN)
      (ph_suitability PH)).length)
    (hj : j < ((result (aspect_suitability A) (slope_suitability S)
      (precip_suitability P) (tmax_suitability TX) (tmin_suitability TN)
      (ph_suitability PH)).getD i []).length) :
    cellAt (result (aspect_suitability A) (slope_suitability S)
        (precip_suitability P) (tmax_suitability TX) (tmin_suitability TN)
        (ph_suitability PH)) i j = 0 ∨
      (6 ≤ cellAt (result (aspect_suitability A) (slope_suitability S)
          (precip_suitability P) (tmax_suitability TX) (tmin_suitability TN)
          (ph_suitability PH)) i j ∧
        cellAt (result (aspect_suitability A) (slope_suitability S)
          (precip_suitability P) (tmax_suitability TX) (tmin_suitability TN)
          (ph_suitability PH)) i j ≤ 12) := by
  obtain ⟨⟨ba, ba'⟩, ⟨bs, bs'⟩, ⟨bp, bp'⟩, ⟨btx, btx'⟩, ⟨btn, btn'⟩, ⟨bph, bph'⟩⟩ :=
    result_bounds _ _ _ _ _ _ i j hi hj
  rw [result_cellAt _ _ _ _ _ _ _ _ hi hj]
  unfold aspect_suitability at ba ba' ⊢
  unfold slope_suitability at bs bs' ⊢
  unfold precip_suitability at bp bp' ⊢
  unfold tmax_suitability at btx btx' ⊢
  unfold tmin_suitability at btn btn' ⊢
  unfold ph_suitability at bph bph' ⊢
  rw [cellAt_mapGrid _ _ _ _ ba ba', cellAt_mapGrid _ _ _ _ bs bs',
    cellAt_mapGrid _ _ _ _ bp bp', cellAt_mapGrid _ _ _ _ btx btx',
    cellAt_mapGrid _ _ _ _ btn btn', cellAt_mapGrid _ _ _ _ bph bph']
  exact pipeline_cell_range _ _ _ _ _ _

/-- C5 witness: a concrete fully-optimal 1-by-1 run of the pipeline lands in
the band (here at its maximum, 12). -/
theorem result_range_witness :
    cellAt (result (aspect_suitability [[90]]) (slope_suitability [[1]])
        (precip_suitability [[1000]]) (tmax_suitability [[30]])
        (tmin_suitability [[20]]) (ph_suitability [[5.5]])) 0 0 = 0 ∨
      (6 ≤ cellAt (result (aspect_suitability [[90]]) (slope_suitability [[1]])
          (precip_suitability [[1000]]) (tmax_suitability [[30]])
          (tmin_suitability [[20]]) (ph_suitability [[5.5]])) 0 0 ∧
        cellAt (result (aspect_suitability [[90]]) (slope_suitability [[1]])
          (precip_suitability [[1000]]) (tmax_suitability [[30]])
          (tmin_suitability [[20]]) (ph_suitability [[5.5]])) 0 0 ≤ 12) :=
  result_range [[90]] [[1]] [[1000]] [[30]] [[20]] [[5.5]] 0 0
    (by norm_num [result, map2, testGrid, maskZero, combinedGrid, aspect_suitability,
      slope_suitability, precip_suitability, tmax_suitability, tmin_suitability,
      ph_suitability])
    (by norm_num [result, map2, testGrid, maskZero, combinedGrid, aspect_suitability,
      slope_suitability, precip_suitability, tmax_suitability, tmin_suitability,
      ph_suitability, List.getD])

/-! Exact aspect behaviour on each region of inputs. -/

lemma aspect_cell_band (v : ℚ) (h : aspect_min < v ∧ v < aspect_max) :
    aspect_suitability_cell v = 0 := by
  simp only [aspect_suitability_cell, applyMask, aspectCond0, aspectCond1, aspectCond2]
  rw [if_pos h]
  norm_num

lemma aspect_cell_nonneg (v : ℚ) (h0 : 0 ≤ v)
    (h : ¬(aspect_min < v ∧ v < aspect_max)) : aspect_suitability_cell v = 2 := by
  simp only [aspect_suitability_cell, applyMask, aspectCond0, aspectCond1, aspectCond2]
  rw [if_neg h, if_pos h0]
  norm_num

lemma aspect_cell_neg (v : ℚ) (h : v < 0) (h99 : v ≠ -99) :
    aspect_suitability_cell v = v := by
  have hb : ¬(aspect_min < v ∧ v < aspect_max) := by
    rintro ⟨h1, -⟩
    rw [aspect_min] at h1
    linarith
  have hn : ¬(v ≥ 0) := not_le.mpr h
  simp only [aspect_suitability_cell, applyMask, aspectCond0, aspectCond1, aspectCond2]
  rw [if_neg hb, if_neg hn, if_neg h99]

/-- C3 counterexample: the aspect classifier maps the flat-terrain sentinel
−1 to −1, which is not one of the classes 0, 1, 2. -/
theorem classifier_range_counterexample :
    aspect_suitability_cell (-1) = -1 ∧
      ¬(aspect_suitability_cell (-1) = 0 ∨ aspect_suitability_cell (-1) = 1 ∨
        aspect_suitability_cell (-1) = 2) := by
  norm_num [aspect_suitability_cell, applyMask, aspectCond0, aspectCond1, aspectCond2,
    aspect_min, aspect_max]

/-- C3 amended: each of the five scalar classifiers (precipitation, max
temperature, min temperature, slope, soil pH) sends every input, sentinels
included, to one of 0, 1, 2; the aspect classifier sends every nonnegative
input and −99 to 0 or 2, but returns any other negative input — the flat
sentinel −1 in particular — unchanged. -/
theorem classifier_range_amended (v : ℚ) :
    (precip_suitability_cell v = 0 ∨ precip_suitability_cell v = 1 ∨
      precip_suitability_cell v = 2) ∧
    (tmax_suitability_cell v = 0 ∨ tmax_suitability_cell v = 1 ∨
      tmax_suitability_cell v = 2) ∧
    (tmin_suitability_cell v = 0 ∨ tmin_suitability_cell v = 1 ∨
      tmin_suitability_cell v = 2) ∧
    (slope_suitability_cell v = 0 ∨ slope_suitability_cell v = 1 ∨
      slope_suitability_cell v = 2) ∧
    (ph_suitability_cell v = 0 ∨ ph_suitability_cell v = 1 ∨
      ph_suitability_cell v = 2) ∧
    (0 ≤ v ∨ v = -99 →
      aspect_suitability_cell v = 0 ∨ aspect_suitability_cell v = 2) ∧
    (v < 0 → v ≠ -99 → aspect_suitability_cell v = v) := by
  refine ⟨precip_cell_mem v, tmax_cell_mem v, tmin_cell_mem v, slope_cell_mem v,
    ph_cell_mem v, ?_, aspect_cell_neg v⟩
  intro h
  rcases aspect_cell_cases v with h0 | h2 | ⟨-, hneg, hne⟩
  · exact Or.inl h0
  · exact Or.inr h2
  · rcases h with h | h
    · exact absurd h (not_le.mpr hneg)
    · exact absurd h hne

/-- C3 amended witness: concrete sentinel inputs — soil pH −999 classifies
into a class, and aspect −1 passes through unchanged. -/
theorem classifier_range_amended_witness :
    aspect_suitability_cell (-1) = -1 ∧
      (ph_suitability_cell (-999) = 0 ∨ ph_suitability_cell (-999) = 1 ∨
        ph_suitability_cell (-999) = 2) :=
  ⟨(classifier_range_amended (-1)).2.2.2.2.2.2 (by norm_num) (by norm_num),
    (classifier_range_amended (-999)).2.2.2.2.1⟩

/-- C4 counterexample: the aspect classifier does not return 2 on the
flat-terrain sentinel −1; it returns −1. -/
theorem aspect_policy_counterexample :
    aspect_suitability_cell (-1) = -1 ∧ aspect_suitability_cell (-1) ≠ 2 := by
  norm_num [aspect_suitability_cell, applyMask, aspectCond0, aspectCond1, aspectCond2,
    aspect_min, aspect_max]

/-- C4 amended: the aspect classifier returns 0 exactly on the open
exclusion band (112.5, 202.5) and on the input −99; it returns 2 on every
other nonnegative input, boundaries 0, 112.5, 202.5 included; it returns
every other negative input (the flat sentinel −1 included) unchanged; and
it never produces class 1. -/
theorem aspect_policy_amended (v : ℚ) :
    (aspect_min < v ∧ v < aspect_max → aspect_suitability_cell v = 0) ∧
    (v = -99 → aspect_suitability_cell v = 0) ∧
    (0 ≤ v → ¬(aspect_min < v ∧ v < aspect_max) → aspect_suitability_cell v = 2) ∧
    (v < 0 → v ≠ -99 → aspect_suitability_cell v = v) ∧
    aspect_suitability_cell v ≠ 1 := by
  refine ⟨aspect_cell_band v, ?_, aspect_cell_nonneg v, aspect_cell_neg v, ?_⟩
  · rintro rfl
    norm_num [aspect_suitability_cell, applyMask, aspectCond0, aspectCond1, aspectCond2,
    aspect_min, aspect_max]
  · rcases aspect_cell_cases v with h | h | ⟨heq, hneg, -⟩
    · rw [h]; norm_num
    · rw [h]; norm_num
    · rw [heq]
      intro h1
      rw [h1] at hneg
      norm_num at hneg

/-- C4 amended witness: concrete inputs on each side of the band — 150 is
vetoed, the boundary 112.5 and the boundary 202.5 are suitable. -/
theorem aspect_policy_amended_witness :
    aspect_suitability_cell 150 = 0 ∧ aspect_suitability_cell 112.5 = 2 ∧
      aspect_suitability_cell 202.5 = 2 :=
  ⟨(aspect_policy_amended 150).1 (by norm_num [aspect_min, aspect_max]),
    (aspect_policy_amended 112.5).2.2.1 (by norm_num)
      (by rintro ⟨h1, -⟩; rw [aspect_min] at h1; exact absurd h1 (by norm_num)),
    (aspect_policy_amended 202.5).2.2.1 (by norm_num)
      (by rintro ⟨-, h2⟩; rw [aspect_max] at h2; exact absurd h2 (by norm_num))⟩

/-- C6 counterexample: at the optimum maximum 2000 the precipitation
classifier returns 1, not 2 — the moderate overwrite captures 2000 before
the suitable overwrite can. -/
theorem precip_bands_counterexample :
    precip_suitability_cell 2000 = 1 ∧ precip_suitability_cell 2000 ≠ 2 := by
  norm_num [precip_suitability_cell, applyMask, precipCond0, precipCond1, precipCond2,
    rainfall_abs_max, rainfall_abs_min, rainfall_opt_max, rainfall_opt_min]

/-- C6 amended: the precipitation classifier returns 2 on [500, 2000), 1 on
[300, 500) and on [2000, 2500) — the optimum maximum 2000 itself falls in
the moderate band — and 0 below 300 and from 2500 upward. -/
theorem precip_bands_amended (v : ℚ) :
    (rainfall_opt_min ≤ v ∧ v < rainfall_opt_max → precip_suitability_cell v = 2) ∧
    ((rainfall_abs_min ≤ v ∧ v < rainfall_opt_min) ∨
      (rainfall_opt_max ≤ v ∧ v < rainfall_abs_max) → precip_suitability_cell v = 1) ∧
    (v < rainfall_abs_min ∨ rainfall_abs_max ≤ v → precip_suitability_cell v = 0) := by
  simp only [rainfall_opt_min, rainfall_opt_max, rainfall_abs_min, rainfall_abs_max]
  refine ⟨?_, ?_, ?_⟩
  · rintro ⟨h1, h2⟩
    have hc0 : ¬((2500 : ℚ) ≤ v ∨ v < 300) := by
      rintro (h | h) <;> linarith
    have hc1 : ¬(((300 : ℚ) ≤ v ∧ v < 500) ∨ ((2000 : ℚ) ≤ v ∧ v < 2500)) := by
      rintro (⟨-, h⟩ | ⟨h, -⟩) <;> linarith
    simp only [precip_suitability_cell, applyMask, precipCond0, precipCond1, precipCond2,
      rainfall_opt_min, rainfall_opt_max, rainfall_abs_min, rainfall_abs_max]
    rw [if_neg hc0, if_neg hc1, if_pos ⟨h1, le_of_lt h2⟩]
  · intro h
    have hc0 : ¬((2500 : ℚ) ≤ v ∨ v < 300) := by
      rcases h with ⟨h1, h2⟩ | ⟨h1, h2⟩ <;> rintro (h | h) <;> linarith
    simp only [precip_suitability_cell, applyMask, precipCond0, precipCond1, precipCond2,
      rainfall_opt_min, rainfall_opt_max, rainfall_abs_min, rainfall_abs_max]
    rw [if_neg hc0, if_pos h]
    norm_num
  · intro h
    have hc0 : (2500 : ℚ) ≤ v ∨ v < 300 := h.symm
    simp only [precip_suitability_cell, applyMask, precipCond0, precipCond1, precipCond2,
      rainfall_opt_min, rainfall_opt_max, rainfall_abs_min, rainfall_abs_max]
    rw [if_pos hc0]
    norm_num

/-- C6 amended witness: concrete inputs at the decisive boundaries — 500
suitable, 2000 moderate, 2500 not suitable, 300 moderate. -/
theorem precip_bands_amended_witness :
    precip_suitability_cell 500 = 2 ∧ precip_suitability_cell 2000 = 1 ∧
      precip_suitability_cell 2500 = 0 ∧ precip_suitability_cell 300 = 1 :=
  ⟨(precip_bands_amended 500).1 (by norm_num [rainfall_opt_min, rainfall_opt_max]),
    (precip_bands_amended 2000).2.1
      (Or.inr (by norm_num [rainfall_opt_max, rainfall_abs_max])),
    (precip_bands_amended 2500).2.2 (Or.inr (by norm_num [rainfall_abs_max])),
    (precip_bands_amended 300).2.1
      (Or.inl (by norm_num [rainfall_abs_min, rainfall_opt_min]))⟩

/-- C10 counterexample: the negative aspect value −99 is not kept — the
final overwrite of the aspect chain maps it to 0. -/
theorem aspect_passthrough_counterexample :
    aspect_suitability_cell (-99) = 0 ∧ aspect_suitability_cell (-99) ≠ -99 := by
  norm_num [aspect_suitability_cell, applyMask, aspectCond0, aspectCond1, aspectCond2,
    aspect_min, aspect_max]

/-- C10 amended: every negative aspect input other than −99 (the flat
sentinel −1 in particular) passes through the aspect chain unchanged, and
every cell whose original aspect value is negative combines to 0 whatever
the other five factors hold there — fully suitable ones included. -/
theorem aspect_passthrough_amended (v : ℚ) (h : v < 0) :
    (v ≠ -99 → aspect_suitability_cell v = v) ∧
    ∀ s p tx tn ph : ℚ,
      result_cell (aspect_suitability_cell v) s p tx tn ph = 0 := by
  refine ⟨aspect_cell_neg v h, ?_⟩
  intro s p tx tn ph
  rw [result_cell_eq]
  by_cases h99 : v = -99
  · have ha : aspect_suitability_cell v = 0 := by
      subst h99
      norm_num [aspect_suitability_cell, applyMask, aspectCond0, aspectCond1, aspectCond2,
    aspect_min, aspect_max]
    rw [if_pos (Or.inr (Or.inr (Or.inr (Or.inl ha))))]
  · have ha : aspect_suitability_cell v = v := aspect_cell_neg v h h99
    by_cases hz : p = 0 ∨ tx = 0 ∨ tn = 0 ∨ aspect_suitability_cell v = 0 ∨
        s = 0 ∨ ph = 0
    · rw [if_pos hz]
    · have hng : ¬(aspect_suitability_cell v > 0) := by
        rw [ha]
        exact not_lt.mpr (le_of_lt h)
      rw [if_neg hz, if_neg hng]

/-- C10 amended witness: the flat sentinel −1 passes through, and a cell
with aspect −1 and every other class fully suitable combines to 0. -/
theorem aspect_passthrough_amended_witness :
    aspect_suitability_cell (-1) = -1 ∧
      result_cell (aspect_suitability_cell (-1)) 2 2 2 2 2 = 0 :=
  ⟨(aspect_passthrough_amended (-1) (by norm_num)).1 (by norm_num),
    (aspect_passthrough_amended (-1) (by norm_num)).2 2 2 2 2 2⟩

/-! Single-pass reference classifiers: a priority-ordered decision on the
original value, taking the conditions in the same order the chains do. -/

def precip_singlePass (v : ℚ) : ℚ :=
  if precipCond0 v then 0 else if precipCond1 v then 1 else
    if precipCond2 v then 2 else v

def tmax_singlePass (v : ℚ) : ℚ :=
  if tmaxCond0 v then 2 else if tmaxCond1 v then 1 else
    if tmaxCond2 v then 0 else v

def tmin_singlePass (v : ℚ) : ℚ :=
  if tminCond0 v then 0 else if tminCond1 v then 1 else
    if tminCond2 v then 2 else v

def slope_singlePass (v : ℚ) : ℚ :=
  if slopeCond0 v then 2 else if slopeCond1 v then 1 else
    if slopeCond2 v then 0 else v

def ph_singlePass (v : ℚ) : ℚ :=
  if phCond0 v then 0 else if phCond1 v then 0 else if phCond2 v then 1 else
    if phCond3 v then 2 else if phCond4 v then 1 else if phCond5 v then 0 else v

lemma precip_chain_eq (v : ℚ) : precip_suitability_cell v = precip_singlePass v := by
  simp only [precip_suitability_cell, precip_singlePass, applyMask, precipCond0,
    precipCond1, precipCond2, rainfall_abs_max, rainfall_abs_min, rainfall_opt_max,
    rainfall_opt_min]
  split_ifs <;> norm_num at *

lemma tmax_chain_eq (v : ℚ) : tmax_suitability_cell v = tmax_singlePass v := by
  simp only [tmax_suitability_cell, tmax_singlePass, applyMask, tmaxCond0, tmaxCond1,
    tmaxCond2, temperature_abs_max, temperature_opt_max]
  split_ifs <;> norm_num at *

lemma tmin_chain_eq (v : ℚ) : tmin_suitability_cell v = tmin_singlePass v := by
  simp only [tmin_suitability_cell, tmin_singlePass, applyMask, tminCond0, tminCond1,
    tminCond2, temperature_abs_min, temperature_opt_min]
  split_ifs <;> norm_num at *

lemma slope_chain_eq (v : ℚ) : slope_suitability_cell v = slope_singlePass v := by
  simp only [slope_suitability_cell, slope_singlePass, applyMask, slopeCond0, slopeCond1,
    slopeCond2, slope_abs_max, slope_opt_max]
  split_ifs <;> norm_num at *

lemma ph_chain_eq (v : ℚ) : ph_suitability_cell v = ph_singlePass v := by
  simp only [ph_suitability_cell, ph_singlePass, applyMask, phCond0, phCond1, phCond2,
    phCond3, phCond4, phCond5, ph_abs_max, ph_abs_min, ph_opt_max, ph_opt_min]
  split_ifs <;> norm_num at *

/-- C9: for each of the five scalar factors, the in-place overwrite chain
computes, on every input value, the same class as the priority-ordered
single-pass decision on the original value taken in the same condition
order — the written labels 0, 1, 2 never satisfy a later condition of the
same chain. -/
theorem chain_singlePass_equiv (v : ℚ) :
    precip_suitability_cell v = precip_singlePass v ∧
    tmax_suitability_cell v = tmax_singlePass v ∧
    tmin_suitability_cell v = tmin_singlePass v ∧
    slope_suitability_cell v = slope_singlePass v ∧
    ph_suitability_cell v = ph_singlePass v :=
  ⟨precip_chain_eq v, tmax_chain_eq v, tmin_chain_eq v, slope_chain_eq v,
    ph_chain_eq v⟩

/-- C7 evaluation: the script does not validate shapes — it trims the
soil-pH raster by one row and one column right after reading it
(ph with index slices dropping the last row and column) and then combines
without any dimension check.  On a 3-by-3 pH raster next to 2-by-2 factor
grids the pipeline silently produces a full 2-by-2 result instead of
raising a shape-mismatch error. -/
theorem ph_trim_truncates :
    gridShape (phTrim [[6, 6, 6], [6, 6, 6], [6, 6, 6]]) = (2, [2, 2]) ∧
    gridShape (result [[2, 2], [2, 2]] [[2, 2], [2, 2]] [[2, 2], [2, 2]]
      [[2, 2], [2, 2]] [[2, 2], [2, 2]]
      (ph_suitability (phTrim [[6, 6, 6], [6, 6, 6], [6, 6, 6]]))) = (2, [2, 2]) ∧
    cellAt (result [[2, 2], [2, 2]] [[2, 2], [2, 2]] [[2, 2], [2, 2]]
      [[2, 2], [2, 2]] [[2, 2], [2, 2]]
      (ph_suitability (phTrim [[6, 6, 6], [6, 6, 6], [6, 6, 6]]))) 0 0 = 11 := by
  norm_num [phTrim, gridShape, result, map2, testGrid, maskZero, combinedGrid,
    ph_suitability, ph_suitability_cell, applyMask, phCond0, phCond1, phCond2, phCond3,
    phCond4, phCond5, ph_abs_max, ph_abs_min, ph_opt_max, ph_opt_min, cellAt,
    List.getD, List.dropLast]

/-! A small state embedding for the frame properties: the script's arrays
are named variables, each masked assignment writes in place to one named
target, and each classification block first copies the input array into the
output variable and then mutates only the output variable. -/

inductive Var
  | precip | precipS | tmax | tmaxS | tmin | tminS
  | slope | slopeS | aspect | aspectS | ph | phS
  deriving DecidableEq

abbrev PState := Var → Grid

def setVar (v : Var) (g : Grid) (st : PState) : PState :=
  fun w => if w = v then g else st w

/-- The in-place masked assignment `target[c(target)] = x`. -/
def maskedAssign (v : Var) (c : ℚ → Prop) [DecidablePred c] (x : ℚ)
    (st : PState) : PState :=
  setVar v ((st v).map (List.map (applyMask c x))) st

def precipBlock (st : PState) : PState :=
  maskedAssign Var.precipS precipCond2 2 (maskedAssign Var.precipS precipCond1 1
    (maskedAssign Var.precipS precipCond0 0
      (setVar Var.precipS (st Var.precip) st)))

def tmaxBlock (st : PState) : PState :=
  maskedAssign Var.tmaxS tmaxCond2 0 (maskedAssign Var.tmaxS tmaxCond1 1
    (maskedAssign Var.tmaxS tmaxCond0 2
      (setVar Var.tmaxS (st Var.tmax) st)))

def tminBlock (st : PState) : PState :=
  maskedAssign Var.tminS tminCond2 2 (maskedAssign Var.tminS tminCond1 1
    (maskedAssign Var.tminS tminCond0 0
      (setVar Var.tminS (st Var.tmin) st)))

def slopeBlock (st : PState) : PState :=
  maskedAssign Var.slopeS slopeCond2 0 (maskedAssign Var.slopeS slopeCond1 1
    (maskedAssign Var.slopeS slopeCond0 2
      (setVar Var.slopeS (st Var.slope) st)))

def aspectBlock (st : PState) : PState :=
  maskedAssign Var.aspectS aspectCond2 0 (maskedAssign Var.aspectS aspectCond1 2
    (maskedAssign Var.aspectS aspectCond0 (-99)
      (setVar Var.aspectS (st Var.aspect) st)))

def phBlock (st : PState) : PState :=
  maskedAssign Var.phS phCond5 0 (maskedAssign Var.phS phCond4 1
    (maskedAssign Var.phS phCond3 2 (maskedAssign Var.phS phCond2 1
      (maskedAssign Var.phS phCond1 0 (maskedAssign Var.phS phCond0 0
        (setVar Var.phS (st Var.ph) st))))))

lemma setVar_read_eq (v : Var) (g : Grid) (st : PState) : setVar v g st v = g := by
  simp [setVar]

lemma setVar_read_ne (v w : Var) (g : Grid) (st : PState) (h : w ≠ v) :
    setVar v g st w = st w := by
  simp [setVar, h]

/-- Three composed elementwise grid maps collapse to one. -/
lemma grid_chain3 (f0 f1 f2 : ℚ → ℚ) (g : Grid) :
    ((g.map (List.map f0)).map (List.map f1)).map (List.map f2) =
      g.map (List.map (fun v => f2 (f1 (f0 v)))) := by
  simp [List.map_map, Function.comp_def]

/-- Six composed elementwise grid maps collapse to one. -/
lemma grid_chain6 (f0 f1 f2 f3 f4 f5 : ℚ → ℚ) (g : Grid) :
    (((((g.map (List.map f0)).map (List.map f1)).map (List.map f2)).map
      (List.map f3)).map (List.map f4)).map (List.map f5) =
      g.map (List.map (fun v => f5 (f4 (f3 (f2 (f1 (f0 v))))))) := by
  simp [List.map_map, Function.comp_def]

/-- An elementwise grid map keeps the shape. -/
lemma gridShape_map (f : ℚ → ℚ) (g : Grid) :
    gridShape (g.map (List.map f)) = gridShape g := by
  simp [gridShape]

lemma precipBlock_out (st : PState) :
    precipBlock st Var.precipS = precip_suitability (st Var.precip) := by
  simp only [precipBlock, maskedAssign, setVar_read_eq]
  rw [grid_chain3]
  rfl

lemma tmaxBlock_out (st : PState) :
    tmaxBlock st Var.tmaxS = tmax_suitability (st Var.tmax) := by
  simp only [tmaxBlock, maskedAssign, setVar_read_eq]
  rw [grid_chain3]
  rfl

lemma tminBlock_out (st : PState) :
    tminBlock st Var.tminS = tmin_suitability (st Var.tmin) := by
  simp only [tminBlock, maskedAssign, setVar_read_eq]
  rw [grid_chain3]
  rfl

lemma slopeBlock_out (st : PState) :
    slopeBlock st Var.slopeS = slope_suitability (st Var.slope) := by
  simp only [slopeBlock, maskedAssign, setVar_read_eq]
  rw [grid_chain3]
  rfl

lemma aspectBlock_out (st : PState) :
    aspectBlock st Var.aspectS = aspect_suitability (st Var.aspect) := by
  simp only [aspectBlock, maskedAssign, setVar_read_eq]
  rw [grid_chain3]
  rfl

lemma phBlock_out (st : PState) :
    phBlock st Var.phS = ph_suitability (st Var.ph) := by
  simp only [phBlock, maskedAssign, setVar_read_eq]
  rw [grid_chain6]
  rfl

lemma precipBlock_frame (st : PState) : precipBlock st Var.precip = st Var.precip := by
  simp only [precipBlock, maskedAssign]
  rw [setVar_read_ne _ _ _ _ (by decide), setVar_read_ne _ _ _ _ (by decide),
    setVar_read_ne _ _ _ _ (by decide), setVar_read_ne _ _ _ _ (by decide)]

lemma tmaxBlock_frame (st : PState) : tmaxBlock st Var.tmax = st Var.tmax := by
  simp only [tmaxBlock, maskedAssign]
  rw [setVar_read_ne _ _ _ _ (by decide), setVar_read_ne _ _ _ _ (by decide),
    setVar_read_ne _ _ _ _ (by decide), setVar_read_ne _ _ _ _ (by decide)]

lemma tminBlock_frame (st : PState) : tminBlock st Var.tmin = st Var.tmin := by
  simp only [tminBlock, maskedAssign]
  rw [setVar_read_ne _ _ _ _ (by decide), setVar_read_ne _ _ _ _ (by decide),
    setVar_read_ne _ _ _ _ (by decide), setVar_read_ne _ _ _ _ (by decide)]

lemma slopeBlock_frame (st : PState) : slopeBlock st Var.slope = st Var.slope := by
  simp only [slopeBlock, maskedAssign]
  rw [setVar_read_ne _ _ _ _ (by decide), setVar_read_ne _ _ _ _ (by decide),
    setVar_read_ne _ _ _ _ (by decide), setVar_read_ne _ _ _ _ (by decide)]

lemma aspectBlock_frame (st : PState) : aspectBlock st Var.aspect = st Var.aspect := by
  simp only [aspectBlock, maskedAssign]
  rw [setVar_read_ne _ _ _ _ (by decide), setVar_read_ne _ _ _ _ (by decide),
    setVar_read_ne _ _ _ _ (by decide), setVar_read_ne _ _ _ _ (by decide)]

lemma phBlock_frame (st : PState) : phBlock st Var.ph = st Var.ph := by
  simp only [phBlock, maskedAssign]
  rw [setVar_read_ne _ _ _ _ (by decide), setVar_read_ne _ _ _ _ (by decide),
    setVar_read_ne _ _ _ _ (by decide), setVar_read_ne _ _ _ _ (by decide),
    setVar_read_ne _ _ _ _ (by decide), setVar_read_ne _ _ _ _ (by decide),
    setVar_read_ne _ _ _ _ (by decide)]

/-- C8: classifier purity — each factor's classification block leaves its
input grid untouched, writes an output grid of identical shape into a new
variable, and is deterministic: states agreeing on the input grid get
identical output grids. -/
theorem classifier_pure (st : PState) :
    (precipBlock st Var.precip = st Var.precip ∧
      gridShape (precipBlock st Var.precipS) = gridShape (st Var.precip) ∧
      ∀ st' : PState, st Var.precip = st' Var.precip →
        precipBlock st Var.precipS = precipBlock st' Var.precipS) ∧
    (tmaxBlock st Var.tmax = st Var.tmax ∧
      gridShape (tmaxBlock st Var.tmaxS) = gridShape (st Var.tmax) ∧
      ∀ st' : PState, st Var.tmax = st' Var.tmax →
        tmaxBlock st Var.tmaxS = tmaxBlock st' Var.tmaxS) ∧
    (tminBlock st Var.tmin = st Var.tmin ∧
      gridShape (tminBlock st Var.tminS) = gridShape (st Var.tmin) ∧
      ∀ st' : PState, st Var.tmin = st' Var.tmin →
        tminBlock st Var.tminS = tminBlock st' Var.tminS) ∧
    (slopeBlock st Var.slope = st Var.slope ∧
      gridShape (slopeBlock st Var.slopeS) = gridShape (st Var.slope) ∧
      ∀ st' : PState, st Var.slope = st' Var.slope →
        slopeBlock st Var.slopeS = slopeBlock st' Var.slopeS) ∧
    (aspectBlock st Var.aspect = st Var.aspect ∧
      gridShape (aspectBlock st Var.aspectS) = gridShape (st Var.aspect) ∧
      ∀ st' : PState, st Var.aspect = st' Var.aspect →
        aspectBlock st Var.aspectS = aspectBlock st' Var.aspectS) ∧
    (phBlock st Var.ph = st Var.ph ∧
      gridShape (phBlock st Var.phS) = gridShape (st Var.ph) ∧
      ∀ st' : PState, st Var.ph = st' Var.ph →
        phBlock st Var.phS = phBlock st' Var.phS) := by
  refine ⟨⟨precipBlock_frame st, ?_, ?_⟩, ⟨tmaxBlock_frame st, ?_, ?_⟩,
    ⟨tminBlock_frame st, ?_, ?_⟩, ⟨slopeBlock_frame st, ?_, ?_⟩,
    ⟨aspectBlock_frame st, ?_, ?_⟩, ⟨phBlock_frame st, ?_, ?_⟩⟩
  · rw [precipBlock_out]
    exact gridShape_map _ _
  · intro st' h
    rw [precipBlock_out, precipBlock_out, h]
  · rw [tmaxBlock_out]
    exact gridShape_map _ _
  · intro st' h
    rw [tmaxBlock_out, tmaxBlock_out, h]
  · rw [tminBlock_out]
    exact gridShape_map _ _
  · intro st' h
    rw [tminBlock_out, tminBlock_out, h]
  · rw [slopeBlock_out]
    exact gridShape_map _ _
  · intro st' h
    rw [slopeBlock_out, slopeBlock_out, h]
  · rw [aspectBlock_out]
    exact gridShape_map _ _
  · intro st' h
    rw [aspectBlock_out, aspectBlock_out, h]
  · rw [phBlock_out]
    exact gridShape_map _ _
  · intro st' h
    rw [phBlock_out, phBlock_out, h]

/-- A concrete state holding one 1-by-2 grid in every variable. -/
def stateA : PState := fun _ => [[1000, 6]]

/-- C8 witness: on a concrete state, the precipitation block leaves its
input unchanged and two runs from states agreeing on the input coincide. -/
theorem classifier_pure_witness :
    precipBlock stateA Var.precip = stateA Var.precip ∧
      gridShape (precipBlock stateA Var.precipS) = gridShape (stateA Var.precip) ∧
      precipBlock stateA Var.precipS = precipBlock stateA Var.precipS :=
  ⟨(classifier_pure stateA).1.1, (classifier_pure stateA).1.2.1,
    (classifier_pure stateA).1.2.2 stateA rfl⟩

end Avocado
